import Mathlib

/-!
Verification development for the C-Star ROMS execution pipeline
(`cstar/roms/component.py`): the allocation planner, the namelist
template resolver calls made by `ROMSComponent.pre_run`, the scheduler
dispatch and direct-execution supervision in `ROMSComponent.run`, and
the output join stage in `ROMSComponent.post_run`.

The Python code is shallowly embedded: file-system effects become
explicit event traces, exceptions become `Except`/`Option` error
values, and the text manipulation done through Python `str` methods is
re-implemented on `List Char` by structural recursion so that closed
statements evaluate inside the kernel.

`_calculate_node_distribution` and `_replace_text_in_file` live in
`cstar/base/utils.py`, which is not part of the sources at hand; they
are modelled from the specification (sections 4.1 and 4.2) and marked
as such in their doc comments.
-/

namespace CStar

/-! ## Character-list string utilities

Python string operations used by `component.py`, re-implemented by
structural recursion so they reduce in the kernel.
-/

/-- Auxiliary for `pySplit`: splits at characters satisfying `p`,
dropping empty chunks, accumulating the current token reversed. -/
def pySplitAux (p : Char → Bool) : List Char → List Char → List (List Char)
  | [], acc => if acc.isEmpty then [] else [acc.reverse]
  | c :: cs, acc =>
    if p c then
      if acc.isEmpty then pySplitAux p cs []
      else acc.reverse :: pySplitAux p cs []
    else pySplitAux p cs (c :: acc)

/-- Model of Python `str.split()` with no arguments, as used on each
stdout line in `ROMSComponent.run`: split on runs of whitespace,
discarding empty fields. -/
def pySplit (s : String) : List String :=
  (pySplitAux Char.isWhitespace s.toList []).map String.mk

/-- Digit-string value: `some` of the decimal value when the list is a
nonempty run of digits, else `none`. -/
def digitsVal (cs : List Char) : Option Nat :=
  if ¬ cs.isEmpty && cs.all (·.isDigit) then
    some (cs.foldl (fun a c => a * 10 + (c.toNat - 48)) 0)
  else none

/-- Model of Python `int()` applied to a whitespace-free field produced
by `str.split()`: an optional sign followed by one or more digits
succeeds, anything else raises `ValueError` (here: `none`). -/
def pyInt (s : String) : Option Int :=
  match s.toList with
  | '-' :: rest => (digitsVal rest).map (fun v => -(v : Int))
  | '+' :: rest => (digitsVal rest).map (fun v => (v : Int))
  | cs => (digitsVal cs).map (fun v => (v : Int))

/-- Whether `pat` occurs as a contiguous substring of the second list
(Python `pat in s`). -/
def containsTok : List Char → List Char → Bool
  | pat, [] => pat.isEmpty
  | pat, c :: cs => pat.isPrefixOf (c :: cs) || containsTok pat cs

/-- Fuel-driven replacement of every non-overlapping occurrence of
`pat` (nonempty) by `repl`, left to right, as Python `str.replace`
does; the fuel is an upper bound on the length of the text. -/
def replaceFuel (pat repl : List Char) : Nat → List Char → List Char
  | 0, cs => cs
  | _ + 1, [] => []
  | fuel + 1, c :: cs =>
    if ¬ pat.isEmpty && pat.isPrefixOf (c :: cs) then
      repl ++ replaceFuel pat repl fuel (cs.drop (pat.length - 1))
    else c :: replaceFuel pat repl fuel cs

/-- `strContainsSub s pat` is Python `pat in s`. -/
def strContainsSub (s pat : String) : Bool :=
  containsTok pat.toList s.toList

/-- All occurrences of `pat` replaced by `repl` (Python
`s.replace(pat, repl)`). -/
def strReplaceAll (s pat repl : String) : String :=
  String.mk (replaceFuel pat.toList repl.toList (s.toList.length + 1) s.toList)

/-- Model of `pathlib.Path.stem` for the file names handled by
`post_run` (names containing a dot after the first character): the name
with everything from the final dot removed; a dot-free name is returned
unchanged. -/
def pathStem (s : String) : String :=
  let r := s.toList.reverse
  if r.contains '.' then String.mk ((r.dropWhile (· ≠ '.')).drop 1).reverse
  else s

/-- Model of `pathlib.Path.parent` rendered as a string: everything
before the final slash. -/
def parentDir (s : String) : String :=
  let r := s.toList.reverse
  if r.contains '/' then String.mk ((r.dropWhile (· ≠ '/')).drop 1).reverse
  else s

/-- fnmatch-style glob matching restricted to the `*` wildcard, which
is the only wildcard in the patterns `pathlib.Path.glob` receives from
`post_run` (`*.*0.nc` and `<stem>.*.nc`). -/
def globMatchL : List Char → List Char → Bool
  | [], ss => ss.isEmpty
  | '*' :: ps, ss => (List.range (ss.length + 1)).any fun k => globMatchL ps (ss.drop k)
  | p :: ps, ss =>
    match ss with
    | [] => false
    | c :: cs => p = c && globMatchL ps cs

/-- `globMatch pat s`: does file name `s` match glob pattern `pat`. -/
def globMatch (pat s : String) : Bool :=
  globMatchL pat.toList s.toList

/-! ## Spec-modelled externals (`cstar/base/utils.py`) -/

/-- Modelled from the spec: `_calculate_node_distribution` (defined in
`cstar/base/utils.py`, which is not among the sources at hand).
Spec 4.1: given positive `total_procs` and `cores_per_node`, return
`(ceil(total_procs / cores_per_node), cores_per_node)`; fail with a
`ConfigurationError` if `total_procs` is unset or non-positive (the
unknown-`cores_per_node` failure is raised by the caller in
`ROMSComponent.run`, which is part of the sources). -/
def calculateNodeDistribution (totalProcs coresPerNode : Nat) :
    Except String (Nat × Nat) :=
  if totalProcs = 0 then
    .error "ConfigurationError: total_procs must be a positive integer"
  else
    .ok ((totalProcs + coresPerNode - 1) / coresPerNode, coresPerNode)

/-- Modelled from the spec: `_replace_text_in_file` (defined in
`cstar/base/utils.py`, which is not among the sources at hand).
Spec 4.2: check the file content for a literal token substring, replace
all occurrences with the replacement, and return whether the token was
found; an absent token leaves the content byte-for-byte unchanged.
The file is represented by its content string. -/
def replaceTextInFile (content token replacement : String) : String × Bool :=
  if strContainsSub content token then
    (strReplaceAll content token replacement, true)
  else
    (content, false)

/-- `ROMSDiscretization.n_procs_tot`: the derived total process count
`n_procs_x * n_procs_y`. -/
def nProcsTotOf (nProcsX nProcsY : Nat) : Nat :=
  nProcsX * nProcsY

/-! ## The `run()` model

`ROMSComponent.run` is embedded as a function from its arguments, the
environment constants, and the observable behavior of the external
child process to a trace of effects plus an optional error (a Python
exception message). -/

/-- One observable effect of `ROMSComponent.run`. -/
inductive RunEvent
  /-- a `warnings.warn` call -/
  | warn (msg : String)
  /-- a `_replace_text_in_file` call on the working namelist -/
  | subst (file token replacement : String)
  /-- `output_dir.mkdir(parents=True, exist_ok=True)` -/
  | mkdirEvt (dir : String)
  /-- a submission script written into the run directory -/
  | writeScript (fname content : String)
  /-- a queue-submission command (`qsub`/`sbatch`) invoked in the run directory -/
  | submit (cmd : String)
  /-- the direct (scheduler-less) child process launched -/
  | execDirect (cmd : String)
  /-- a progress report printed for one stdout line -/
  | progressPrint (stepsElapsed total : Int) (elapsed eta : ℚ)
  /-- the one-time initializing status printed -/
  | initPrint
  /-- the captured stderr persisted to a log file -/
  | writeErrLog (path content : String)
deriving DecidableEq

/-- Outcome of a `run()` call: the effect trace and the exception, if
any, that terminated it. -/
structure RunOutcome where
  events : List RunEvent
  error : Option String
deriving DecidableEq

/-- The namelist bookkeeping `run()` reads off `self.namelists`. -/
structure NamelistCfg where
  workingPath : String
  hasModifiedFiles : Bool
  modifiedFile : String
deriving DecidableEq

/-- Observable behavior of the external child process in direct
execution: each stdout line paired with the wall-clock seconds elapsed
since `T0` when it is read, then the exit code and the captured
stderr; `timestamp` is the `datetime.now().strftime(...)` value used to
name the error log. -/
structure Child where
  stdoutLines : List (String × ℚ)
  returncode : Int
  stderr : String
  timestamp : String
deriving DecidableEq

/-- Arguments of `run()` together with the environment constants it
reads (`_CSTAR_SYSTEM`, `_CSTAR_SCHEDULER`,
`_CSTAR_SYSTEM_CORES_PER_NODE`, `_CSTAR_SYSTEM_DEFAULT_PARTITION`) and
the state `run()` consults (`exe_path`, `namelists`,
`discretization`). -/
structure Params where
  exePath : Option String
  outputDir : Option String
  namelists : Option NamelistCfg
  nTimeSteps : Option Int
  accountKey : Option String
  walltime : String
  jobName : String
  timeStep : Int
  nProcsTot : Option Nat
  system : String
  scheduler : Option String
  coresPerNode : Option Nat
  defaultPartition : String
  child : Child
deriving DecidableEq

/-- The `match _CSTAR_SYSTEM` block choosing the MPI launcher prefix;
an unlisted system leaves `exec_pfx` unbound (a `NameError` at its
first use). -/
def execPfx : String → Option String
  | "sdsc_expanse" => some "srun --mpi=pmi2"
  | "nersc_perlmutter" => some "srun"
  | "ncar_derecho" => some "mpirun"
  | "osx_arm64" => some "mpirun"
  | "linux_x86_64" => some "mpirun"
  | _ => none

/-- Python `f"{x}"` on an `Optional[int]`. -/
def optNatStr : Option Nat → String
  | some n => toString n
  | none => "None"

/-- The warning text emitted when `n_time_steps` is `None`. -/
def warnMsg : String :=
  "n_time_steps not explicitly set, using default value of 1. Please call ROMSComponent.run() with the n_time_steps argument to specify the length of the run."

/-- The PBS submission script assembled by the `case "pbs"` branch. -/
def pbsScript (jobName accountKey : String) (nnodes ncores : Nat)
    (walltime partition system cmd : String) : String :=
  "#PBS -S /bin/bash"
  ++ "\n#PBS -N " ++ jobName
  ++ "\n#PBS -o " ++ jobName ++ ".out"
  ++ "\n#PBS -A " ++ accountKey
  ++ "\n#PBS -l select=" ++ toString nnodes ++ ":ncpus=" ++ toString ncores
      ++ ",walltime=" ++ walltime
  ++ "\n#PBS -q " ++ partition
  ++ "\n#PBS -j oe"
  ++ "\n#PBS -k eod"
  ++ "\n#PBS -V"
  ++ (if system = "ncar_derecho" then "\ncd $\x7bPBS_O_WORKDIR\x7d" else "")
  ++ "\n\n" ++ cmd

/-- The Slurm submission script assembled by the `case "slurm"` branch. -/
def slurmScript (jobName accountKey : String) (nnodes ncores : Nat)
    (walltime partition system cmd : String) : String :=
  "#!/bin/bash"
  ++ "\n#SBATCH --job-name=" ++ jobName
  ++ "\n#SBATCH --output=" ++ jobName ++ ".out"
  ++ (if system = "nersc_perlmutter" then
        "\n#SBATCH --qos=" ++ partition ++ "\n#SBATCH -C cpu"
      else
        "\n#SBATCH --partition=" ++ partition)
  ++ "\n#SBATCH --nodes=" ++ toString nnodes
  ++ "\n#SBATCH --ntasks-per-node=" ++ toString ncores
  ++ "\n#SBATCH --account=" ++ accountKey
  ++ "\n#SBATCH --export=ALL"
  ++ "\n#SBATCH --mail-type=ALL"
  ++ "\n#SBATCH --time=" ++ walltime
  ++ "\n\n" ++ cmd

/-- One iteration of the stdout monitoring loop (`for line in
romsprocess.stdout`): the state is `(tstep0, init_printed)`; a line is
reported as progress when it splits into exactly 9 whitespace fields
whose first field parses as an integer, the first such line fixing the
baseline `tstep0`; a non-conforming line before any progress prints the
one-time initializing banner; everything else is ignored. The ETA is
the code's `(n_time_steps - (tstep - tstep0)) * ((tstep - tstep0) /
(time.time() - T0))`. -/
def processLineStep (n : Int) (st : Int × Bool) (lt : String × ℚ) :
    (Int × Bool) × List RunEvent :=
  let parts := pySplit lt.1
  if parts.length = 9 then
    match pyInt (parts.headD "") with
    | some tstep =>
      let t0 := if st.1 = 0 then tstep else st.1
      let eta : ℚ := ((n : ℚ) - ((tstep : ℚ) - (t0 : ℚ)))
          * (((tstep : ℚ) - (t0 : ℚ)) / lt.2)
      ((t0, st.2), [.progressPrint (tstep - t0) n lt.2 eta])
    | none => (st, [])
  else if st.1 = 0 && st.2 = false then
    ((st.1, true), [.initPrint])
  else (st, [])

/-- The whole stdout monitoring loop over the captured lines. -/
def processStdout (n : Int) (st : Int × Bool) :
    List (String × ℚ) → List RunEvent
  | [] => []
  | lt :: rest =>
    let step := processLineStep n st lt
    step.2 ++ processStdout n step.1 rest

/-- The `case None` branch of the scheduler match: launch the command,
monitor stdout, and on a non-zero exit persist stderr to a timestamped
log in the output directory and raise referencing it. -/
def directExec (n : Int) (cmd outputDir : String) (child : Child) : RunOutcome :=
  let pe := processStdout n (0, false) child.stdoutLines
  if child.returncode = 0 then
    ⟨.execDirect cmd :: pe, none⟩
  else
    let errlog := outputDir ++ "/ROMS_STDERR_" ++ child.timestamp ++ ".log"
    ⟨.execDirect cmd :: pe ++ [.writeErrLog errlog child.stderr],
      some ("ROMS terminated with errors. See " ++ errlog
        ++ " for further information.")⟩

/-- The `match _CSTAR_SCHEDULER` dispatch: `"pbs"` and `"slurm"` each
require an account key and then write and submit a scheduler script;
`None` runs directly; any other value matches no case and does
nothing. -/
def dispatch (scheduler accountKey : Option String)
    (jobName walltime partition system outputDir cmd : String)
    (n : Int) (nnodes ncores : Nat) (child : Child) : RunOutcome :=
  match scheduler with
  | some "pbs" =>
    match accountKey with
    | none => ⟨[], some "please call Component.run() with a value for account_key"⟩
    | some ak =>
      ⟨[.writeScript "cstar_run_script.pbs"
          (pbsScript jobName ak nnodes ncores walltime partition system cmd),
        .submit "qsub cstar_run_script.pbs"], none⟩
  | some "slurm" =>
    match accountKey with
    | none => ⟨[], some "please call Component.run() with a value for account_key"⟩
    | some ak =>
      ⟨[.writeScript "cstar_run_script.sh"
          (slurmScript jobName ak nnodes ncores walltime partition system cmd),
        .submit "sbatch cstar_run_script.sh"], none⟩
  | none => directExec n cmd outputDir child
  | some _ => ⟨[], none⟩

/-- The `roms_exec_cmd` f-string: launcher prefix, `-n`, total process
count, executable path, namelist path. -/
def romsCmd (pfx : String) (nProcsTot : Option Nat) (exe modNamelist : String) :
    String :=
  pfx ++ " -n " ++ optNatStr nProcsTot ++ " " ++ exe ++ " " ++ modNamelist

/-- `run()` from the point where the command line is assembled: choose
the launcher prefix, build `roms_exec_cmd`, compute the node
distribution (its two guard errors included), then dispatch on the
scheduler. -/
def runExec (exe outputDir modNamelist : String) (n : Int) (system : String)
    (nProcsTot coresPerNode : Option Nat) (scheduler accountKey : Option String)
    (jobName walltime partition : String) (child : Child) : RunOutcome :=
  match execPfx system with
  | none => ⟨[], some "NameError: name exec_pfx is not defined"⟩
  | some pfx =>
    let cmd := romsCmd pfx nProcsTot exe modNamelist
    match nProcsTot with
    | none =>
      ⟨[], some "Unable to calculate node distribution for this Component. Component.n_procs_tot is not set"⟩
    | some t =>
      match coresPerNode with
      | none =>
        ⟨[], some ("Unable to calculate node distribution for system: "
          ++ system
          ++ ". C-Star is unaware of your systems node configuration (cores per node). Your system may be unsupported.")⟩
      | some cpn =>
        match calculateNodeDistribution t cpn with
        | .error e => ⟨[], some e⟩
        | .ok (nnodes, ncores) =>
          dispatch scheduler accountKey jobName walltime partition system
            outputDir cmd n nnodes ncores child

/-- `run()` after the `n_time_steps` defaulting: substitute the
timestep placeholders into the working namelist (or fail when there is
no editable namelist), create the output directory, then continue with
`runExec`. -/
def runAfterWarn (exe outputDir : String) (nl : NamelistCfg) (n : Int)
    (timeStep : Int) (system : String) (nProcsTot coresPerNode : Option Nat)
    (scheduler accountKey : Option String) (jobName walltime partition : String)
    (child : Child) : RunOutcome :=
  if nl.hasModifiedFiles then
    let modNamelist := nl.workingPath ++ "/" ++ nl.modifiedFile
    let next := runExec exe outputDir modNamelist n system nProcsTot coresPerNode
        scheduler accountKey jobName walltime partition child
    ⟨[.subst modNamelist "__NTIMES_PLACEHOLDER__" (toString n),
      .subst modNamelist "__TIMESTEP_PLACEHOLDER__" (toString timeStep),
      .mkdirEvt outputDir] ++ next.events, next.error⟩
  else
    ⟨[], some "No editable namelist found to set ROMS runtime parameters."⟩

/-- Full model of `ROMSComponent.run`: the `exe_path` and `namelists`
guards, the `output_dir` defaulting, the `n_time_steps = None` warning
and defaulting to 1, then `runAfterWarn`. -/
def runModel (p : Params) : RunOutcome :=
  match p.exePath with
  | none =>
    ⟨[], some "C-STAR: ROMSComponent.exe_path is None; unable to find ROMS executable."⟩
  | some exe =>
    let outputDir := match p.outputDir with
      | some d => d
      | none => parentDir exe
    match p.namelists with
    | none =>
      ⟨[], some "C-STAR: Unable to find namelist file (typically roms.in) associated with this ROMSComponent."⟩
    | some nl =>
      match p.nTimeSteps with
      | none =>
        let next := runAfterWarn exe outputDir nl 1 p.timeStep p.system
            p.nProcsTot p.coresPerNode p.scheduler p.accountKey p.jobName
            p.walltime p.defaultPartition p.child
        ⟨.warn warnMsg :: next.events, next.error⟩
      | some n =>
        let next := runAfterWarn exe outputDir nl n p.timeStep p.system
            p.nProcsTot p.coresPerNode p.scheduler p.accountKey p.jobName
            p.walltime p.defaultPartition p.child
        ⟨next.events, next.error⟩

/-! ## The `pre_run()` model

`ROMSComponent.pre_run` partitions the locally available input
datasets, accumulates the forcing-file lines, substitutes the namelist
placeholders, and validates the MARBL companion files. The working
namelist is represented by its content string, the file system by an
existence predicate, and the partitioning/substitution activity by an
event trace. -/

/-- A local file as `pre_run` sees it: parent directory and base name
(`Path.parent` / `Path.name`). -/
structure FsPath where
  parent : String
  name : String
deriving DecidableEq

/-- `InputDataset.working_path`: one `Path` or a list of co-located
`Path`s. -/
inductive WorkingPath
  | single (p : FsPath)
  | multi (ps : List FsPath)
deriving DecidableEq

/-- The concrete `ROMSInputDataset` subclass of a dataset. -/
inductive DatasetKind
  | modelGrid
  | initialConditions
  | surfaceForcing
  | tidalForcing
  | boundaryForcing
deriving DecidableEq

/-- An input dataset as `pre_run` consults it. -/
structure Dataset where
  kind : DatasetKind
  workingPath : Option WorkingPath
  existsLocally : Bool
deriving DecidableEq

/-- One observable effect of `pre_run`. -/
inductive PreRunEvent
  /-- `partdir.mkdir(parents=True, exist_ok=True)` -/
  | mkdirP (dir : String)
  /-- one backing file partitioned into the given `PARTITIONED` directory -/
  | partitionFile (partdir name : String) (npx npy : Nat)
  /-- a `_replace_text_in_file` call on the working namelist and its result -/
  | replaceCall (token replacement : String) (found : Bool)
deriving DecidableEq

/-- Result of a successful `pre_run`: the final namelist content and
the effect trace. -/
structure PreRunResult where
  namelist : String
  events : List PreRunEvent
deriving DecidableEq

/-- `dir / name` rendered as a string. -/
def renderPath (dir name : String) : String :=
  dir ++ "/" ++ name

/-- The body of the `for f in datasets_to_partition` loop for one
dataset: the loop state is (namelist content, accumulated forcing
block, events). Grid and initial-conditions datasets substitute their
placeholder immediately and reject list-valued working paths; the
forcing kinds only append lines to the accumulated block. -/
def processDataset (npx npy : Nat) (st : String × String × List PreRunEvent)
    (d : Dataset) : Except String (String × String × List PreRunEvent) :=
  let content := st.1
  let forcingStr := st.2.1
  let events := st.2.2
  if ¬ d.existsLocally then
    .error "working_path of InputDataset refers to a non-existent file; call InputDataset.get() and try again."
  else
    match d.workingPath with
    | none => .error "InputDataset has no working path"
    | some wp =>
      let colocated : Bool :=
        match wp with
        | .single _ => true
        | .multi ps => ps.all (fun q => q.parent = (ps.headD ⟨"", ""⟩).parent)
      if ¬ colocated then
        .error "A single input dataset exists in multiple directories."
      else
        let files : List FsPath :=
          match wp with
          | .single p => [p]
          | .multi ps => ps
        let partdir : String := (files.headD ⟨"", ""⟩).parent ++ "/PARTITIONED"
        let events := events ++ [.mkdirP partdir]
            ++ files.map (fun q => .partitionFile partdir q.name npx npy)
        match d.kind with
        | .modelGrid =>
          match wp with
          | .single p =>
            let line := "     " ++ renderPath partdir p.name ++ " \n"
            let rep := replaceTextInFile content "__GRID_FILE_PLACEHOLDER__" line
            .ok (rep.1, forcingStr,
              events ++ [.replaceCall "__GRID_FILE_PLACEHOLDER__" line rep.2])
          | .multi _ => .error "ROMS only accepts a single grid file, found list"
        | .initialConditions =>
          match wp with
          | .single p =>
            let line := "     " ++ renderPath partdir p.name ++ " \n"
            let rep := replaceTextInFile content
                "__INITIAL_CONDITION_FILE_PLACEHOLDER__" line
            .ok (rep.1, forcingStr,
              events ++ [.replaceCall "__INITIAL_CONDITION_FILE_PLACEHOLDER__" line rep.2])
          | .multi _ =>
            .error "ROMS only accepts a single initial conditions file, found list"
        | _ =>
          let newLines := String.join
              (files.map (fun q => "     " ++ renderPath partdir q.name ++ " \n"))
          .ok (content, forcingStr ++ newLines, events)

/-- The dataset loop of `pre_run`, aborting at the first error. -/
def loopDatasets (npx npy : Nat) (st : String × String × List PreRunEvent) :
    List Dataset → Except String (String × String × List PreRunEvent)
  | [] => .ok st
  | d :: rest =>
    match processDataset npx npy st d with
    | .error e => .error e
    | .ok st2 => loopDatasets npx npy st2 rest

/-- The tail of `pre_run` after the dataset loop: the single forcing
substitution followed by the three MARBL auxiliary substitutions with
their companion-file checks, exactly as written in the source — in
particular the guard before the diagnostics-list substitution re-tests
the tracer token and the tracer file. -/
def preRunTail (nlwp : String) (fileExists : String → Bool)
    (st : String × String × List PreRunEvent) : Except String PreRunResult :=
  let rep := replaceTextInFile st.1 "__FORCING_FILES_PLACEHOLDER__" st.2.1
  let events := st.2.2 ++ [.replaceCall "__FORCING_FILES_PLACEHOLDER__" st.2.1 rep.2]
  let marblSettings := nlwp ++ "/marbl_in"
  let rep1 := replaceTextInFile rep.1 "__MARBL_SETTINGS_FILE_PLACEHOLDER__" marblSettings
  let events := events ++ [.replaceCall "__MARBL_SETTINGS_FILE_PLACEHOLDER__" marblSettings rep1.2]
  if rep1.2 && ¬ fileExists marblSettings then
    .error ("Placeholder string for marbl_in file found in ROMS namelist, but marbl_in not found at "
      ++ nlwp ++ ".")
  else
    let tracerPath := nlwp ++ "/marbl_tracer_output_list"
    let rep2 := replaceTextInFile rep1.1 "__MARBL_TRACER_LIST_FILE_PLACEHOLDER__" tracerPath
    let events := events ++ [.replaceCall "__MARBL_TRACER_LIST_FILE_PLACEHOLDER__" tracerPath rep2.2]
    if rep2.2 && ¬ fileExists tracerPath then
      .error (tracerPath ++ " not found.")
    else
      let diagPath := nlwp ++ "/marbl_diagnostics_output_list"
      if rep2.2 && ¬ fileExists tracerPath then
        .error (diagPath ++ " not found.")
      else
        let rep3 := replaceTextInFile rep2.1 "__MARBL_DIAG_LIST_FILE_PLACEHOLDER__" diagPath
        .ok ⟨rep3.1,
          events ++ [.replaceCall "__MARBL_DIAG_LIST_FILE_PLACEHOLDER__" diagPath rep3.2]⟩

/-- Full model of `ROMSComponent.pre_run`: the preliminary guards, the
filter to locally available datasets, the dataset loop, and the
substitution tail. -/
def preRun (ascWorkingPath nlWorkingPath : Option String)
    (hasModifiedFiles : Bool) (datasets : List Dataset)
    (namelistContent : String) (fileExists : String → Bool)
    (npx npy : Nat) : Except String PreRunResult :=
  match ascWorkingPath with
  | none =>
    .error "Unable to prepare ROMSComponent for execution: additional_code.working_path is None"
  | some _ =>
    if ¬ hasModifiedFiles then
      .error "No editable namelist found in which to set ROMS runtime parameters."
    else
      match nlWorkingPath with
      | none => .error "No working path found for ROMSComponent.namelists."
      | some nlwp =>
        match loopDatasets npx npy (namelistContent, "", [])
            (datasets.filter (·.existsLocally)) with
        | .error e => .error e
        | .ok st => preRunTail nlwp fileExists st

/-! ## The `post_run()` model

`ROMSComponent.post_run` globs the output directory for `*.*0.nc`,
joins each matching group with `ncjoin`, and relocates the consumed
partitions into `PARTITIONED/`. The directory is represented by the
list of its top-level file names; `ncjoin` is a black box returning an
exit code and the list of files it creates at top level. -/

/-- Result of a successful `post_run`. -/
structure PostRunResult where
  /-- file names remaining at the top level of the output directory -/
  topLevel : List String
  /-- file names relocated into the `PARTITIONED` subdirectory -/
  partitioned : List String
  /-- informational messages printed -/
  messages : List String
  /-- the wildcard patterns `ncjoin` was invoked on, in order -/
  joinCalls : List String
deriving DecidableEq

/-- The `for f in files` loop of `post_run`: for each initially globbed
file, derive the group pattern by applying `stem` twice, run `ncjoin`,
abort on a non-zero exit, and otherwise move everything matching the
group pattern (including files `ncjoin` just created, but `out.nc`-like
joined names do not match `<stem>.*.nc`) into `PARTITIONED`. -/
def postRunLoop (ncjoin : String → Int × List String) :
    List String → List String × List String × List String →
    Except String (List String × List String × List String)
  | [], st => .ok st
  | f :: rest, (top, parted, calls) =>
    let pattern := pathStem (pathStem f) ++ ".*.nc"
    let res := ncjoin pattern
    if res.1 ≠ 0 then
      .error ("Error " ++ toString res.1 ++ " while joining ROMS output.")
    else
      let top2 := top ++ res.2
      let moved := top2.filter (fun g => globMatch pattern g)
      postRunLoop ncjoin rest
        (top2.filter (fun g => ¬ globMatch pattern g), parted ++ moved,
          calls ++ [pattern])

/-- Full model of `ROMSComponent.post_run`: glob for `*.*0.nc`; when
nothing matches report "no suitable output found" and stop; otherwise
create `PARTITIONED` and run the join loop. -/
def postRun (files : List String) (ncjoin : String → Int × List String) :
    Except String PostRunResult :=
  let matched := files.filter (fun f => globMatch "*.*0.nc" f)
  if matched.isEmpty then
    .ok ⟨files, [], ["no suitable output found"], []⟩
  else
    match postRunLoop ncjoin matched (files, [], []) with
    | .error e => .error e
    | .ok st => .ok ⟨st.1, st.2.1, [], st.2.2⟩

/-! ## Derived classifiers and concrete fixtures -/

/-- Progress-line classification as performed inside the monitoring
loop: the `len(parts) == 9` test followed by the `int(parts[0])`
attempt, returning the parsed step counter on success. -/
def classifyLine (line : String) : Option Int :=
  let parts := pySplit line
  if parts.length = 9 then pyInt (parts.headD "") else none

/-- Is the event a submission-script write. -/
def isWriteScript : RunEvent → Bool
  | .writeScript _ _ => true
  | _ => false

/-- Is the event a queue-submission command. -/
def isSubmit : RunEvent → Bool
  | .submit _ => true
  | _ => false

/-- Is the event an error-log write. -/
def isErrLogEvt : RunEvent → Bool
  | .writeErrLog _ _ => true
  | _ => false

/-- Is the event part of the scheduler-dispatch step (script write,
queue submission, or direct execution). -/
def isDispatchEvt : RunEvent → Bool
  | .writeScript _ _ => true
  | .submit _ => true
  | .execDirect _ => true
  | _ => false

/-- Is the event the forcing-placeholder substitution call. -/
def isForcingReplace : PreRunEvent → Bool
  | .replaceCall "__FORCING_FILES_PLACEHOLDER__" _ _ => true
  | _ => false

/-- Namelist bookkeeping of a fully set up component. -/
def nlBase : NamelistCfg := ⟨"/nl", true, "roms.in"⟩

/-- A child process that exits cleanly with no output. -/
def childQuiet : Child := ⟨[], 0, "", "20240101_000000"⟩

/-- A fully configured `run()` call on a PBS system
(`ncar_derecho`-like environment constants). -/
def baseParams : Params :=
  { exePath := some "/build/roms"
    outputDir := some "/out"
    namelists := some nlBase
    nTimeSteps := some 10
    accountKey := some "ACCT123"
    walltime := "24:00:00"
    jobName := "my_roms_run"
    timeStep := 60
    nProcsTot := some 9
    system := "ncar_derecho"
    scheduler := some "pbs"
    coresPerNode := some 128
    defaultPartition := "main"
    child := childQuiet }

/-- `baseParams` with the given total process count and cores per node. -/
def pbsParams (t c : Nat) : Params :=
  { baseParams with nProcsTot := some t, coresPerNode := some c }

/-- `baseParams` run without a scheduler, against the given child
behavior. -/
def directParams (lines : List (String × ℚ)) (rc : Int) (errTxt ts : String) :
    Params :=
  { baseParams with scheduler := none, child := ⟨lines, rc, errTxt, ts⟩ }

/-- `baseParams` on a system whose cores-per-node count is unknown. -/
def noCpnParams (t : Nat) : Params :=
  { baseParams with coresPerNode := none, nProcsTot := some t }

/-- `baseParams` with `n_procs_x = 0`, hence `n_procs_tot = 0`. -/
def zeroProcParams (c : Nat) : Params :=
  { baseParams with nProcsTot := some (nProcsTotOf 0 3), coresPerNode := some c }

/-- `baseParams` with `n_procs_tot` unset. -/
def unsetProcParams : Params :=
  { baseParams with nProcsTot := none }

/-- A boundary-forcing dataset backed by one local file `b1.nc`. -/
def dsBF1 : Dataset := ⟨.boundaryForcing, some (.single ⟨"/inp/bf1", "b1.nc"⟩), true⟩

/-- A second boundary-forcing dataset backed by one local file `b2.nc`. -/
def dsBF2 : Dataset := ⟨.boundaryForcing, some (.single ⟨"/inp/bf2", "b2.nc"⟩), true⟩

/-- The forcing block accumulated for `dsBF1, dsBF2`: one line per
backing file, in dataset order. -/
def forcingBlockC6 : String :=
  "     /inp/bf1/PARTITIONED/b1.nc \n     /inp/bf2/PARTITIONED/b2.nc \n"

/-- An `ncjoin` capability that succeeds and creates the joined file
`out.nc` for the group pattern `out.*.nc`. -/
def ncjoinOK : String → Int × List String :=
  fun p => (0, if p = "out.*.nc" then ["out.nc"] else [])

/-! ## Helper lemmas -/

/-- The monitoring loop body never writes an error log. -/
theorem processLineStep_no_errlog (n : Int) (st : Int × Bool) (lt : String × ℚ) :
    (processLineStep n st lt).2.filter isErrLogEvt = [] := by
  by_cases h9 : (pySplit lt.1).length = 9
  · rcases hpi : pyInt ((pySplit lt.1).headD "") with _ | v
    · unfold processLineStep
      rw [if_pos h9, hpi]
      rfl
    · unfold processLineStep
      rw [if_pos h9, hpi]
      simp [isErrLogEvt]
  · unfold processLineStep
    rw [if_neg h9]
    by_cases hb : (decide (st.1 = 0) && decide (st.2 = false)) = true
    · rw [if_pos hb]; simp [isErrLogEvt]
    · rw [if_neg hb]; simp [isErrLogEvt]

/-- The whole monitoring loop never writes an error log. -/
theorem processStdout_no_errlog (n : Int) (st : Int × Bool)
    (lines : List (String × ℚ)) :
    (processStdout n st lines).filter isErrLogEvt = [] := by
  induction lines generalizing st with
  | nil => simp [processStdout]
  | cons lt rest ih =>
    simp [processStdout, List.filter_append, processLineStep_no_errlog, ih]

/-! ## Claim theorems -/

/-- C1: for every positive `total_procs` and `cores_per_node`, the node
allocation computed during `run()` via `_calculate_node_distribution`
satisfies `node_count = ceil(total_procs / cores_per_node)` and
`node_count * cores_per_node >= total_procs`, and the cores-per-node
value requested in the scheduler script equals `cores_per_node`: the
PBS script written by `run()` is built with exactly that value in its
`ncpus` resource request. -/
theorem claim_C1 (t c : Nat) (ht : 0 < t) (hc : 0 < c) :
    calculateNodeDistribution t c = .ok ((t + c - 1) / c, c)
    ∧ (t + c - 1) / c = t ⌈/⌉ c
    ∧ t ≤ ((t + c - 1) / c) * c
    ∧ RunEvent.writeScript "cstar_run_script.pbs"
        (pbsScript "my_roms_run" "ACCT123" ((t + c - 1) / c) c "24:00:00" "main"
          "ncar_derecho" (romsCmd "mpirun" (some t) "/build/roms" "/nl/roms.in"))
      ∈ (runModel (pbsParams t c)).events := by
  refine ⟨?_, ?_, ?_, ?_⟩
  · unfold calculateNodeDistribution
    rw [if_neg (Nat.pos_iff_ne_zero.mp ht)]
  · exact (Nat.ceilDiv_eq_add_pred_div t c).symm
  · have h := le_smul_ceilDiv hc (b := t)
    rw [smul_eq_mul, Nat.mul_comm] at h
    rwa [Nat.ceilDiv_eq_add_pred_div] at h
  · simp [runModel, pbsParams, baseParams, nlBase, runAfterWarn, runExec, execPfx,
      dispatch, calculateNodeDistribution, Nat.pos_iff_ne_zero.mp ht]

/-- Witness for C1 at `total_procs = 10`, `cores_per_node = 4`. -/
theorem claim_C1_witness :
    (0 < 10 ∧ 0 < 4)
    ∧ (calculateNodeDistribution 10 4 = .ok ((10 + 4 - 1) / 4, 4)
      ∧ (10 + 4 - 1) / 4 = 10 ⌈/⌉ 4
      ∧ 10 ≤ ((10 + 4 - 1) / 4) * 4
      ∧ RunEvent.writeScript "cstar_run_script.pbs"
          (pbsScript "my_roms_run" "ACCT123" ((10 + 4 - 1) / 4) 4 "24:00:00" "main"
            "ncar_derecho" (romsCmd "mpirun" (some 10) "/build/roms" "/nl/roms.in"))
        ∈ (runModel (pbsParams 10 4)).events) :=
  ⟨⟨by decide, by decide⟩, claim_C1 10 4 (by decide) (by decide)⟩

/-- C2: the claim states the ETA of a progress line after the baseline
equals (remaining requested steps) x (elapsed wall time / elapsed
steps). The code (`component.py` line 860) computes (remaining
requested steps) x (elapsed steps / elapsed wall time) instead — the
ratio is inverted. Evaluating the loop on a run with
`n_time_steps = 10`, baseline step 5 read at 1 s and step 7 read at
4 s: the code reports ETA 4, while the claimed formula gives
(10 - 2) * (4 / 2) = 16. -/
theorem claim_C2_eval :
    processStdout 10 (0, false)
        [("5 a b c d e f g h", 1), ("7 a b c d e f g h", 4)]
      = [.progressPrint 0 10 1 0, .progressPrint 2 10 4 4]
    ∧ (4 : ℚ) ≠ ((10 : ℚ) - 2) * ((4 : ℚ) / 2) := by
  constructor
  · have h1 : pySplit "5 a b c d e f g h"
        = ["5", "a", "b", "c", "d", "e", "f", "g", "h"] := by decide
    have h2 : pySplit "7 a b c d e f g h"
        = ["7", "a", "b", "c", "d", "e", "f", "g", "h"] := by decide
    have h3 : pyInt "5" = some 5 := by decide
    have h4 : pyInt "7" = some 7 := by decide
    simp only [processStdout, processLineStep, h1, h2, h3, h4, List.length_cons,
      List.length_nil, List.headD]
    norm_num
  · norm_num

/-- C3: in direct execution a stdout line is reported as progress iff
it splits into exactly 9 whitespace fields whose first field parses as
an integer; the line `"12   0.1 0.2 0.3 0.4 0.5 0.6 0.7 0.8"` is
classified as progress with step 12, `"Iteration complete"` is not, and
no stdout content can make a clean run fail. -/
theorem claim_C3 :
    (∀ (line : String) (t : ℚ) (n : Int) (st : Int × Bool),
      (∃ s e, (processLineStep n st (line, t)).2 = [RunEvent.progressPrint s n t e])
        ↔ ((pySplit line).length = 9 ∧ (pyInt ((pySplit line).headD "")).isSome))
    ∧ classifyLine "12   0.1 0.2 0.3 0.4 0.5 0.6 0.7 0.8" = some 12
    ∧ classifyLine "Iteration complete" = none
    ∧ (∀ lines : List (String × ℚ),
        (runModel (directParams lines 0 "" "20240101_000000")).error = none) := by
  refine ⟨?_, by decide, by decide, ?_⟩
  · intro line t n st
    by_cases h9 : (pySplit line).length = 9
    · rcases hpi : pyInt ((pySplit line).headD "") with _ | v
      · unfold processLineStep
        simp only [h9, if_true]
        rw [hpi]
        simp [h9, hpi]
      · unfold processLineStep
        simp only [h9, if_true]
        rw [hpi]
        simp [h9, hpi]
    · unfold processLineStep
      simp only [h9, if_false]
      by_cases hb : st.1 = 0 ∧ st.2 = false
      · simp [hb, h9]
      · simp [hb, h9]
  · intro lines
    simp [runModel, directParams, baseParams, nlBase, runAfterWarn, runExec,
      execPfx, dispatch, directExec, calculateNodeDistribution]

/-- C4: the claim requires each auxiliary MARBL token present in the
namelist to obligate its companion file, in particular the
diagnostics-output-list token to obligate
`marbl_diagnostics_output_list`. The code checks the tracer token and
the tracer file again before the diagnostics substitution (an exact
copy of the guard that already raised), so the diagnostics companion
is never checked: with a template containing only the diagnostics
token and no companion file on disk, `pre_run` succeeds and
substitutes the missing path. The settings and tracer obligations do
hold as claimed. -/
theorem claim_C4_eval :
    preRun (some "/src") (some "/nl") true []
        "run:\n__MARBL_DIAG_LIST_FILE_PLACEHOLDER__\n" (fun _ => false) 1 1
      = .ok ⟨"run:\n/nl/marbl_diagnostics_output_list\n",
          [.replaceCall "__FORCING_FILES_PLACEHOLDER__" "" false,
           .replaceCall "__MARBL_SETTINGS_FILE_PLACEHOLDER__" "/nl/marbl_in" false,
           .replaceCall "__MARBL_TRACER_LIST_FILE_PLACEHOLDER__"
             "/nl/marbl_tracer_output_list" false,
           .replaceCall "__MARBL_DIAG_LIST_FILE_PLACEHOLDER__"
             "/nl/marbl_diagnostics_output_list" true]⟩
    ∧ preRun (some "/src") (some "/nl") true []
        "run:\n__MARBL_SETTINGS_FILE_PLACEHOLDER__\n" (fun _ => false) 1 1
      = .error "Placeholder string for marbl_in file found in ROMS namelist, but marbl_in not found at /nl."
    ∧ preRun (some "/src") (some "/nl") true []
        "run:\n__MARBL_TRACER_LIST_FILE_PLACEHOLDER__\n" (fun _ => false) 1 1
      = .error "/nl/marbl_tracer_output_list not found." :=
  ⟨rfl, rfl, rfl⟩

/-- C5: in direct execution, a non-zero child exit code makes `run()`
write exactly one timestamped error-log file in the output directory
holding the captured stderr and raise an error whose message names that
file; a zero exit code raises nothing and writes no log. -/
theorem claim_C5 (lines : List (String × ℚ)) (rc : Int) (errTxt ts : String)
    (hrc : rc ≠ 0) :
    (runModel (directParams lines rc errTxt ts)).events.filter isErrLogEvt
        = [RunEvent.writeErrLog ("/out/ROMS_STDERR_" ++ ts ++ ".log") errTxt]
    ∧ (runModel (directParams lines rc errTxt ts)).error
        = some ("ROMS terminated with errors. See "
            ++ ("/out/ROMS_STDERR_" ++ ts ++ ".log") ++ " for further information.")
    ∧ (runModel (directParams lines 0 errTxt ts)).error = none
    ∧ (runModel (directParams lines 0 errTxt ts)).events.filter isErrLogEvt = [] := by
  refine ⟨?_, ?_, ?_, ?_⟩ <;>
    simp [runModel, directParams, baseParams, nlBase, runAfterWarn, runExec,
      execPfx, dispatch, directExec, calculateNodeDistribution, hrc,
      List.filter_append, processStdout_no_errlog, isErrLogEvt]

/-- Witness for C5 at exit code 1, stderr `"boom"`, timestamp
`20250101_120000`, no stdout. -/
theorem claim_C5_witness :
    ((1 : Int) ≠ 0)
    ∧ ((runModel (directParams [] 1 "boom" "20250101_120000")).events.filter isErrLogEvt
          = [RunEvent.writeErrLog ("/out/ROMS_STDERR_" ++ "20250101_120000" ++ ".log") "boom"]
      ∧ (runModel (directParams [] 1 "boom" "20250101_120000")).error
          = some ("ROMS terminated with errors. See "
              ++ ("/out/ROMS_STDERR_" ++ "20250101_120000" ++ ".log")
              ++ " for further information.")
      ∧ (runModel (directParams [] 0 "boom" "20250101_120000")).error = none
      ∧ (runModel (directParams [] 0 "boom" "20250101_120000")).events.filter isErrLogEvt
          = []) :=
  ⟨by decide, claim_C5 [] 1 "boom" "20250101_120000" (by decide)⟩

/-- C6: with a template containing the forcing-files placeholder and
two boundary-forcing datasets each backed by one local file, `pre_run`
partitions both datasets and then substitutes the forcing placeholder
exactly once, after all partitioning, with a block of exactly two lines
in dataset order, each naming a path under a `PARTITIONED` directory. -/
theorem claim_C6 :
    preRun (some "/src") (some "/nl") true [dsBF1, dsBF2]
        "forcing:\n__FORCING_FILES_PLACEHOLDER__\n" (fun _ => false) 2 3
      = .ok ⟨"forcing:\n" ++ forcingBlockC6 ++ "\n",
          [.mkdirP "/inp/bf1/PARTITIONED",
           .partitionFile "/inp/bf1/PARTITIONED" "b1.nc" 2 3,
           .mkdirP "/inp/bf2/PARTITIONED",
           .partitionFile "/inp/bf2/PARTITIONED" "b2.nc" 2 3,
           .replaceCall "__FORCING_FILES_PLACEHOLDER__" forcingBlockC6 true,
           .replaceCall "__MARBL_SETTINGS_FILE_PLACEHOLDER__" "/nl/marbl_in" false,
           .replaceCall "__MARBL_TRACER_LIST_FILE_PLACEHOLDER__"
             "/nl/marbl_tracer_output_list" false,
           .replaceCall "__MARBL_DIAG_LIST_FILE_PLACEHOLDER__"
             "/nl/marbl_diagnostics_output_list" false]⟩
    ∧ forcingBlockC6
        = "     /inp/bf1/PARTITIONED/b1.nc \n" ++ "     /inp/bf2/PARTITIONED/b2.nc \n"
    ∧ (forcingBlockC6.toList.filter (fun ch => ch = '\n')).length = 2
    ∧ strContainsSub "     /inp/bf1/PARTITIONED/b1.nc \n" "/PARTITIONED/" = true
    ∧ strContainsSub "     /inp/bf2/PARTITIONED/b2.nc \n" "/PARTITIONED/" = true
    ∧ (match preRun (some "/src") (some "/nl") true [dsBF1, dsBF2]
          "forcing:\n__FORCING_FILES_PLACEHOLDER__\n" (fun _ => false) 2 3 with
        | .ok r => r.events.filter isForcingReplace
        | .error _ => [])
      = [.replaceCall "__FORCING_FILES_PLACEHOLDER__" forcingBlockC6 true] :=
  ⟨rfl, rfl, rfl, rfl, rfl, rfl⟩

/-- C7: with scheduler kind `pbs` and `account_key = None`, `run()`
raises the missing-account-key error and the dispatch step neither
writes a submission script nor submits anything. -/
theorem claim_C7 :
    (runModel { baseParams with accountKey := none }).error
        = some "please call Component.run() with a value for account_key"
    ∧ (runModel { baseParams with accountKey := none }).events.filter isWriteScript = []
    ∧ (runModel { baseParams with accountKey := none }).events.filter isSubmit = [] :=
  ⟨rfl, rfl, rfl⟩

/-- C8: with top-level files `out.000.nc` and `out.001.nc`, `post_run`
invokes the join capability once on the group pattern `out.*.nc` and on
its success relocates both partitions into `PARTITIONED` (they are
moved, not deleted), leaving only the joined `out.nc` at top level;
with no per-worker files present it reports "no suitable output found"
and raises no error. -/
theorem claim_C8 :
    postRun ["out.000.nc", "out.001.nc"] ncjoinOK
      = .ok ⟨["out.nc"], ["out.000.nc", "out.001.nc"], [], ["out.*.nc"]⟩
    ∧ postRun ["readme.txt", "notes.log"] ncjoinOK
      = .ok ⟨["readme.txt", "notes.log"], [], ["no suitable output found"], []⟩ :=
  ⟨rfl, rfl⟩

/-- C9: `run()` fails before any dispatch event (no script write, no
submission, no direct execution) whenever the cores-per-node count for
the current system is unknown, whenever `n_procs_tot` is 0 (for example
`n_procs_x = 0`), and whenever `n_procs_tot` is unset. -/
theorem claim_C9 :
    (∀ t : Nat,
      (runModel (noCpnParams t)).error
          = some ("Unable to calculate node distribution for system: ncar_derecho. C-Star is unaware of your systems node configuration (cores per node). Your system may be unsupported.")
      ∧ (runModel (noCpnParams t)).events.filter isDispatchEvt = [])
    ∧ (∀ c : Nat,
      (runModel (zeroProcParams c)).error
          = some "ConfigurationError: total_procs must be a positive integer"
      ∧ (runModel (zeroProcParams c)).events.filter isDispatchEvt = [])
    ∧ ((runModel unsetProcParams).error
        = some "Unable to calculate node distribution for this Component. Component.n_procs_tot is not set"
      ∧ (runModel unsetProcParams).events.filter isDispatchEvt = []) := by
  refine ⟨fun t => ⟨?_, ?_⟩, fun c => ⟨?_, ?_⟩, ?_, ?_⟩ <;>
    simp [runModel, noCpnParams, zeroProcParams, unsetProcParams, baseParams,
      nlBase, runAfterWarn, runExec, execPfx, dispatch, calculateNodeDistribution,
      nProcsTotOf, isDispatchEvt]

/-- C10: calling `run()` with `n_time_steps = None` does not fail: it
emits the warning, substitutes `1` for the total-steps placeholder, and
otherwise behaves exactly as a call with `n_time_steps = 1`. -/
theorem claim_C10 (p : Params) (exe : String) (nl : NamelistCfg)
    (he : p.exePath = some exe) (hn : p.namelists = some nl) :
    (runModel { p with nTimeSteps := none }).events
        = RunEvent.warn warnMsg :: (runModel { p with nTimeSteps := some 1 }).events
    ∧ (runModel { p with nTimeSteps := none }).error
        = (runModel { p with nTimeSteps := some 1 }).error
    ∧ (nl.hasModifiedFiles = true →
        RunEvent.subst (nl.workingPath ++ "/" ++ nl.modifiedFile)
            "__NTIMES_PLACEHOLDER__" "1"
          ∈ (runModel { p with nTimeSteps := none }).events) := by
  have h1 : toString (1 : Int) = "1" := rfl
  refine ⟨?_, ?_, ?_⟩
  · simp [runModel, he, hn]
  · simp [runModel, he, hn]
  · intro hm
    simp [runModel, he, hn, runAfterWarn, hm, h1]

/-- Witness for C10 at the fully configured `baseParams`. -/
theorem claim_C10_witness :
    (baseParams.exePath = some "/build/roms"
      ∧ baseParams.namelists = some nlBase)
    ∧ ((runModel { baseParams with nTimeSteps := none }).events
          = RunEvent.warn warnMsg
            :: (runModel { baseParams with nTimeSteps := some 1 }).events
      ∧ (runModel { baseParams with nTimeSteps := none }).error
          = (runModel { baseParams with nTimeSteps := some 1 }).error
      ∧ (nlBase.hasModifiedFiles = true →
          RunEvent.subst (nlBase.workingPath ++ "/" ++ nlBase.modifiedFile)
              "__NTIMES_PLACEHOLDER__" "1"
            ∈ (runModel { baseParams with nTimeSteps := none }).events)) :=
  ⟨⟨rfl, rfl⟩, claim_C10 baseParams "/build/roms" nlBase rfl rfl⟩

end CStar
